import Mathlib

/-!
Verification of odaotool: the network balance report and the RPL TWAP price.

A shallow embedding of the two computational files of the repository,
`submit-network-balances.go` and `submit-rpl-price.go`.

Modelling conventions.

* `*big.Int` values are `Int`.  Inputs read from a `NetworkState` are taken to
  be non-nil; the report struct `networkBalances` keeps its pointer fields as
  `Option Int`, so that the zero value `networkBalances{}` (all pointers nil)
  is distinguishable from a populated report.
* `uint64`/`uint8` values are `Nat`; the only arithmetic the code performs on
  them is a division and comparisons, which cannot overflow.
* A run-time panic (integer division by zero, index out of range) is the
  outer `none` of an `Option` result.
* Go `error` values are their message strings; `fmt.Errorf("...: %w", err)`
  is string concatenation.
* Calls into other modules (RPC clients, the network state manager, the
  rewards tree generator, the pool contract) are inputs: a record holds the
  outcome of each call.
-/

namespace Odaotool

/-! ## Data model (types of rocketpool-go / smartnode used by the code) -/

/-- The lifecycle status of a minipool, `rptypes.MinipoolStatus`. -/
inductive MinipoolStatus where
  | Initialized
  | Prelaunch
  | Staking
  | Withdrawable
  | Dissolved
  deriving DecidableEq, Repr

/-- The deposit type of a minipool, `rptypes.MinipoolDeposit`. -/
inductive MinipoolDeposit where
  | None
  | Full
  | Half
  | Empty
  | Variable
  deriving DecidableEq, Repr

/-- The fields of `rpstate.NativeMinipoolDetails` read by the code. -/
structure NativeMinipoolDetails where
  Pubkey : Nat
  Status : MinipoolStatus
  DepositType : MinipoolDeposit
  Version : Nat
  IsVacant : Bool
  UserDepositBalance : Int
  NodeDepositBalance : Int
  NodeRefundBalance : Int
  Balance : Int
  UserShareOfBalanceIncludingBeacon : Int
  deriving DecidableEq, Repr

/-- The fields of `beacon.ValidatorStatus` read by the code; `Balance` is in gwei. -/
structure ValidatorStatus where
  Exists : Bool
  ActivationEpoch : Nat
  ExitEpoch : Nat
  Balance : Nat
  deriving DecidableEq, Repr

/-- The fields of `rpstate.NativeNodeDetails` read by the code. -/
structure NativeNodeDetails where
  DistributorBalanceUserETH : Int
  DepositCreditBalance : Int
  deriving DecidableEq, Repr

/-- The field of `beacon.Eth2Config` read through `state.BeaconConfig`. -/
structure Eth2Config where
  SlotsPerEpoch : Nat
  deriving DecidableEq, Repr

/-- The fields of `state.NetworkDetails` read by the code.  `IntervalDuration`
is a `time.Duration`, a signed count of nanoseconds. -/
structure NetworkDetails where
  DepositPoolBalance : Int
  DepositPoolUserBalance : Int
  RETHBalance : Int
  TotalRETHSupply : Int
  RewardIndex : Nat
  IntervalDuration : Int
  deriving DecidableEq, Repr

/-- The fields of `state.NetworkState` read by the code.  The Go map
`ValidatorDetails` is an association list from public key to record. -/
structure NetworkState where
  ElBlockNumber : Nat
  BeaconSlotNumber : Nat
  BeaconConfig : Eth2Config
  NetworkDetails : NetworkDetails
  NodeDetails : List NativeNodeDetails
  MinipoolDetails : List NativeMinipoolDetails
  ValidatorDetails : List (Nat × ValidatorStatus)
  IsAtlasDeployed : Bool
  deriving DecidableEq, Repr

/-- The struct `networkBalances` of `submit-network-balances.go`. -/
structure networkBalances where
  Block : Nat
  DepositPool : Option Int
  MinipoolsTotal : Option Int
  MinipoolsStaking : Option Int
  DistributorShareTotal : Option Int
  SmoothingPoolShare : Option Int
  RETHContract : Option Int
  RETHSupply : Option Int
  NodeCreditBalance : Option Int
  deriving DecidableEq, Repr

/-- The struct `minipoolBalanceDetails` of `submit-network-balances.go`. -/
structure minipoolBalanceDetails where
  IsStaking : Bool
  UserBalance : Int
  deriving DecidableEq, Repr

/-! ## Helpers standing for Go built-ins and library calls -/

deriving instance DecidableEq for Except

/-- The Go map read `state.ValidatorDetails[pubkey]`: the record stored under
the key, or the zero value of `beacon.ValidatorStatus` when the key is absent. -/
def validatorDetailsAt (m : List (Nat × ValidatorStatus)) (pubkey : Nat) : ValidatorStatus :=
  match m.lookup pubkey with
  | some v => v
  | none => { Exists := false, ActivationEpoch := 0, ExitEpoch := 0, Balance := 0 }

/-- The number of low bits a `uint64` loses when it is converted to `float64`
(53 significant bits): the least `e ≤ 11` with `n < 2^(53+e)`. -/
def float64Shift (n : Nat) : Nat :=
  ((List.range 12).find? (fun e => decide (n < 2 ^ (53 + e)))).getD 11

/-- The Go conversion `float64(x)` of a `uint64`, as the integer the resulting
float denotes: `x` rounded to 53 significant bits, ties to even. -/
def float64 (n : Nat) : Nat :=
  let e := float64Shift n
  let q := n / 2 ^ e
  let r := n % 2 ^ e
  if 2 * r < 2 ^ e then q * 2 ^ e
  else if 2 ^ e < 2 * r then (q + 1) * 2 ^ e
  else if q % 2 = 0 then q * 2 ^ e
  else (q + 1) * 2 ^ e

/-- Modelled from the spec: `eth.GweiToWei` of rocketpool-go is not part of this
repository; the spec calls it the unit conversion of the validator balance into
ledger units, that is multiplication by `10^9`.  Its argument is the integer
denoted by the `float64` the caller passes. -/
def GweiToWei (gwei : Nat) : Int :=
  (gwei : Int) * 10 ^ 9

/-- Modelled from the spec: `eth.EthToWei(16)` of rocketpool-go, the fixed
offset of 16 ETH (32/2 units) expressed in wei. -/
def EthToWei_16 : Int := 16 * 10 ^ 18

/-- Modelled from the spec: `eth.EthToWei(1)` of rocketpool-go, one ETH in wei
(the source comments it as `1e18`). -/
def EthToWei_1 : Int := 10 ^ 18

/-- Modelled from the spec: `eth.EthToWei(1.0001)` of rocketpool-go, the tick
base 1.0001 as an 18-decimal fixed-point integer (the source comments it as
`1.0001e18`). -/
def EthToWei_1_0001 : Int := 1000100000000000000

/-- The call `big.Int.Exp(x, y, nil)`: `x**y`, except that the result is `1`
when `y ≤ 0`. -/
def bigExp (x y : Int) : Int :=
  if y ≤ 0 then 1 else x ^ y.toNat

/-- The call `big.Int.Div(x, y)`: Euclidean division (`/` on `Int` is
`Int.ediv`), which panics when `y` is zero. -/
def bigDiv (x y : Int) : Option Int :=
  if y = 0 then none else some (x / y)

/-! ## `getMinipoolBalanceDetails` -/

/-- The method `getMinipoolBalanceDetails` (the receiver and `cfg` are not
read).  The result is `none` when the division computing `blockEpoch` panics. -/
def getMinipoolBalanceDetails (mpd : NativeMinipoolDetails) (state : NetworkState) :
    Option minipoolBalanceDetails :=
  let status := mpd.Status
  let userDepositBalance := mpd.UserDepositBalance
  let mpType := mpd.DepositType
  let validator := validatorDetailsAt state.ValidatorDetails mpd.Pubkey
  if state.BeaconConfig.SlotsPerEpoch = 0 then none
  else
    let blockEpoch := state.BeaconSlotNumber / state.BeaconConfig.SlotsPerEpoch
    -- Ignore vacant minipools
    if mpd.IsVacant then
      some { IsStaking := false, UserBalance := 0 }
    -- Dissolved minipools don't contribute to rETH
    else if status = MinipoolStatus.Dissolved then
      some { IsStaking := false, UserBalance := 0 }
    -- Use user deposit balance if initialized or prelaunch
    else if status = MinipoolStatus.Initialized ∨ status = MinipoolStatus.Prelaunch then
      some { IsStaking := false, UserBalance := userDepositBalance }
    -- "Broken" LEBs with the Redstone delegates
    else if mpd.DepositType = MinipoolDeposit.Variable ∧ mpd.Version = 2 then
      let brokenBalance := mpd.Balance
      let brokenBalance := brokenBalance + GweiToWei (float64 validator.Balance)
      let brokenBalance := brokenBalance - mpd.NodeRefundBalance
      let brokenBalance := brokenBalance - mpd.NodeDepositBalance
      some { IsStaking := validator.Exists && decide (validator.ActivationEpoch < blockEpoch)
                            && decide (validator.ExitEpoch > blockEpoch),
             UserBalance := brokenBalance }
    -- Use user deposit balance if validator not yet active on beacon chain at block
    else if validator.Exists = false ∨ validator.ActivationEpoch ≥ blockEpoch then
      some { IsStaking := false, UserBalance := userDepositBalance }
    else
      -- Here userBalance is CalculateUserShare(beaconBalance + minipoolBalance - refund)
      let userBalance := mpd.UserShareOfBalanceIncludingBeacon
      if userDepositBalance = 0 ∧ mpType = MinipoolDeposit.Full then
        some { IsStaking := decide (validator.ExitEpoch > blockEpoch),
               UserBalance := userBalance - EthToWei_16 }
      else
        some { IsStaking := decide (validator.ExitEpoch > blockEpoch),
               UserBalance := userBalance }

/-! ## `getNetworkBalances` -/

/-- The outcome of each call `getNetworkBalances` makes into other modules. -/
structure BalancesCollaborators where
  GetBestApiClient : Except String Unit
  NewNetworkStateManager : Except String Unit
  GetStateForSlot : Except String NetworkState
  NewTreeGenerator : Except String Unit
  ApproximateStakerShareOfSmoothingPool : Except String Int

/-- The zero value `networkBalances{}`. -/
def networkBalancesZero : networkBalances :=
  { Block := 0, DepositPool := none, MinipoolsTotal := none, MinipoolsStaking := none,
    DistributorShareTotal := none, SmoothingPoolShare := none, RETHContract := none,
    RETHSupply := none, NodeCreditBalance := none }

/-- The loop of the first goroutine: `mpBalanceDetails[i]` is the classification
of `state.MinipoolDetails[i]`.  `none` when a classification panics. -/
def minipoolBalanceLoop (state : NetworkState) :
    List NativeMinipoolDetails → Option (List minipoolBalanceDetails)
  | [] => some []
  | mpd :: rest =>
    match getMinipoolBalanceDetails mpd state with
    | none => none
    | some d =>
      match minipoolBalanceLoop state rest with
      | none => none
      | some ds => some (d :: ds)

/-- The loop of the second goroutine: the distributor share of every node. -/
def distributorShareLoop (nodes : List NativeNodeDetails) : List Int :=
  nodes.map (fun node => node.DistributorBalanceUserETH)

/-- The third goroutine: `none` when `timeSinceStart / intervalTime` panics,
otherwise the error it returns or the smoothing pool share it stores. -/
def smoothingPoolTask (ext : BalancesCollaborators) (state : NetworkState) :
    Option (Except String Int) :=
  let intervalTime := state.NetworkDetails.IntervalDuration
  if intervalTime = 0 then none
  else
    match ext.NewTreeGenerator with
    | .error err =>
      some (.error ("error creating merkle tree generator to approximate share of smoothing pool: " ++ err))
    | .ok _ =>
      match ext.ApproximateStakerShareOfSmoothingPool with
      | .error err => some (.error ("error getting approximate share of smoothing pool: " ++ err))
      | .ok share => some (.ok share)

/-- The loop `Add minipool balances`: the accumulators are
`(MinipoolsTotal, MinipoolsStaking)`. -/
def addMinipoolBalances (mpBalanceDetails : List minipoolBalanceDetails) : Int × Int :=
  mpBalanceDetails.foldl
    (fun acc mp =>
      let total := acc.1 + mp.UserBalance
      if mp.IsStaking then (total, acc.2 + mp.UserBalance) else (total, acc.2))
    (0, 0)

/-- The loop `Add node credits`, run only when `state.IsAtlasDeployed`. -/
def addNodeCredits (state : NetworkState) : Int :=
  if state.IsAtlasDeployed then
    state.NodeDetails.foldl (fun acc node => acc + node.DepositCreditBalance) 0
  else 0

/-- The loop `Add distributor shares`. -/
def addDistributorShares (distributorShares : List Int) : Int :=
  distributorShares.foldl (fun acc share => acc + share) 0

/-- The method `getNetworkBalances`.  `elBlockHeaderNumber` is
`elBlockHeader.Number`; `slotTime` only feeds the tree generator, whose outcome
is part of `ext`.  The result is `none` when a goroutine panics, otherwise the
returned pair of report and error (`none` for a nil error). -/
def getNetworkBalances (ext : BalancesCollaborators) (elBlockHeaderNumber : Int) (elBlock : Int)
    (beaconBlock : Nat) (isAtlasDeployed : Bool) : Option (networkBalances × Option String) :=
  -- Get a client with the block number available
  match ext.GetBestApiClient with
  | .error err => some (networkBalancesZero, some err)
  | .ok _ =>
  -- Create a new state gen manager
  match ext.NewNetworkStateManager with
  | .error err =>
    some (networkBalancesZero,
      some ("error creating network state manager for EL block " ++ toString elBlock
        ++ ", Beacon slot " ++ toString beaconBlock ++ ": " ++ err))
  | .ok _ =>
  -- Create a new state for the target block
  match ext.GetStateForSlot with
  | .error err =>
    some (networkBalancesZero,
      some ("couldn't get network state for EL block " ++ toString elBlock
        ++ ", Beacon slot " ++ toString beaconBlock ++ ": " ++ err))
  | .ok state =>
  let rethContractBalance := state.NetworkDetails.RETHBalance
  let rethTotalSupply := state.NetworkDetails.TotalRETHSupply
  -- Get deposit pool balance
  let depositPoolBalance :=
    if isAtlasDeployed then state.NetworkDetails.DepositPoolUserBalance
    else state.NetworkDetails.DepositPoolBalance
  -- The three goroutines; a panic in any of them ends the process
  match minipoolBalanceLoop state state.MinipoolDetails, smoothingPoolTask ext state with
  | none, _ => none
  | some _, none => none
  -- Wait for data
  | some _, some (.error err) => some (networkBalancesZero, some err)
  | some mpBalanceDetails, some (.ok smoothingPoolShare) =>
    let distributorShares := distributorShareLoop state.NodeDetails
    let sums := addMinipoolBalances mpBalanceDetails
    some ({ Block := elBlockHeaderNumber.natAbs % 2 ^ 64,
            DepositPool := some depositPoolBalance,
            MinipoolsTotal := some sums.1,
            MinipoolsStaking := some sums.2,
            DistributorShareTotal := some (addDistributorShares distributorShares),
            SmoothingPoolShare := some smoothingPoolShare,
            RETHContract := some rethContractBalance,
            RETHSupply := some rethTotalSupply,
            NodeCreditBalance := some (addNodeCredits state) }, none)

/-! ## `getRplTwap` -/

/-- The constant `twapNumberOfSeconds`: 12 hours. -/
def twapNumberOfSeconds : Nat := 60 * 60 * 12

/-- The struct `poolObserveResponse`. -/
structure poolObserveResponse where
  TickCumulatives : List Int
  SecondsPerLiquidityCumulativeX128s : List Int
  deriving DecidableEq, Repr

/-- The configuration value and the outcome of each call `getRplTwap` makes
into other modules. -/
structure TwapCollaborators where
  GetRplTwapPoolAddress : String
  GetBestApiClient : Except String Unit
  abiJSON : Except String Unit
  observe : Except String poolObserveResponse

/-- The method `getRplTwap`.  The result is `none` on a panic (index out of
range, division by zero), otherwise the returned price or error. -/
def getRplTwap (ext : TwapCollaborators) (blockNumber : Nat) : Option (Except String Int) :=
  let poolAddress := ext.GetRplTwapPoolAddress
  if poolAddress = "" then
    some (.error "RPL TWAP pool contract not deployed on this network")
  else
  -- Get a client with the block number available
  match ext.GetBestApiClient with
  | .error err => some (.error err)
  | .ok _ =>
  -- Construct the pool contract instance
  match ext.abiJSON with
  | .error err => some (.error ("error decoding RPL TWAP pool ABI: " ++ err))
  | .ok _ =>
  -- Get RPL price
  let interval := twapNumberOfSeconds
  match ext.observe with
  | .error err =>
    some (.error ("could not get RPL price at block " ++ toString blockNumber ++ ": " ++ err))
  | .ok response =>
  match response.TickCumulatives[1]?, response.TickCumulatives[0]? with
  | some cumulative1, some cumulative0 =>
    let tick := cumulative1 - cumulative0
    -- tick = (cumulative[1] - cumulative[0]) / interval
    (bigDiv tick (interval : Int)).bind fun tick =>
    let base := EthToWei_1_0001
    let one := EthToWei_1
    -- 1.0001e18 ^ tick
    let numerator := bigExp base tick
    let numerator := numerator * one
    -- 1e18 ^ tick
    let denominator := bigExp one tick
    -- denominator = (1.0001e18^tick / 1e18^tick)
    (bigDiv numerator denominator).bind fun denominator =>
    -- 1e18 ^ 2
    let numerator := one * one
    (bigDiv numerator denominator).bind fun rplPrice =>
    some (.ok rplPrice)
  | _, _ => none

/-! ## The slot of a target block, computed in both `run` methods -/

/-- The conversion `int64(x)` of a `uint64`: the value is kept modulo `2^64`
and read as a signed number. -/
def int64 (x : Nat) : Int :=
  if x % 2 ^ 64 < 2 ^ 63 then ((x % 2 ^ 64 : Nat) : Int) else ((x % 2 ^ 64 : Nat) : Int) - 2 ^ 64

/-- The largest `time.Duration`, in nanoseconds. -/
def maxDuration : Int := 2 ^ 63 - 1

/-- The smallest `time.Duration`, in nanoseconds. -/
def minDuration : Int := -(2 ^ 63)

/-- The value of an `int64` computation whose exact result is `x`: arithmetic
on `int64` wraps modulo `2^64`. -/
def wrapInt64 (x : Int) : Int :=
  (x + 2 ^ 63) % 2 ^ 64 - 2 ^ 63

/-- The constant `unixToInternal` of package `time`: the seconds from year 1
to 1970. -/
def unixToInternal : Int := 62135596800

/-- A `time.Time` without monotonic clock reading: `ext` holds the seconds
since year 1 as an `int64`, `nsec` the nanoseconds within the second. -/
structure Time where
  ext : Int
  nsec : Int
  deriving DecidableEq, Repr

/-- The call `time.Unix(sec, 0)`: the seconds are stored as
`sec + unixToInternal`, an `int64` sum. -/
def timeUnix (sec : Int) : Time :=
  { ext := wrapInt64 (sec + unixToInternal), nsec := 0 }

/-- The method `Time.addSec`: adds `d` seconds, saturating when the `int64`
sum overflows. -/
def timeAddSec (t : Time) (d : Int) : Time :=
  let sum := wrapInt64 (t.ext + d)
  if decide (sum > t.ext) = decide (d > 0) then { t with ext := sum }
  else if d > 0 then { t with ext := 2 ^ 63 - 1 }
  else { t with ext := -(2 ^ 63 - 1) }

/-- The method `Time.Add`: the duration `d` is split into whole seconds and
nanoseconds with truncated division, the nanoseconds are carried. -/
def timeAdd (t : Time) (d : Int) : Time :=
  let dsec := Int.tdiv d (10 ^ 9)
  let nsec := t.nsec + Int.tmod d (10 ^ 9)
  if nsec ≥ 10 ^ 9 then timeAddSec { t with nsec := nsec - 10 ^ 9 } (wrapInt64 (dsec + 1))
  else if nsec < 0 then timeAddSec { t with nsec := nsec + 10 ^ 9 } (wrapInt64 (dsec - 1))
  else timeAddSec { t with nsec := nsec } dsec

/-- The method `Time.Sub`: `t.Sub(u)` computes the difference in nanoseconds
as an `int64`, and returns it when adding it to `u` gives `t` back; otherwise
the difference is out of range and the minimum duration (when `t` is before
`u`) or the maximum duration is returned. -/
def timeSub (t u : Time) : Int :=
  let d := wrapInt64 (wrapInt64 (wrapInt64 (t.ext - u.ext) * 10 ^ 9) + (t.nsec - u.nsec))
  if timeAdd u d = t then d
  else if t.ext < u.ext ∨ (t.ext = u.ext ∧ t.nsec < u.nsec) then minDuration
  else maxDuration

/-- Division rounded to the nearest integer, ties to the even one. -/
def roundHalfEven (a b : Nat) : Nat :=
  let q := a / b
  let r := a % b
  if 2 * r < b then q
  else if b < 2 * r then q + 1
  else if q % 2 = 0 then q
  else q + 1

/-- The binary exponent of the float `float64(nsec)/1e9` for `0 < nsec < 10^9`:
the least `e` with `2^52 ≤ nsec * 2^e / 10^9`. -/
def fractionShift (nsec : Nat) : Nat :=
  ((List.range 83).find? (fun e => decide (10 ^ 9 * 2 ^ 52 ≤ nsec * 2 ^ e))).getD 82

/-- The number of low bits lost when `n` is rounded to 53 significant bits. -/
def significandShift (n : Nat) : Nat :=
  ((List.range 70).find? (fun k => decide (n < 2 ^ (53 + k)))).getD 69

/-- The integer part of `d.Seconds()` for a duration of `d ≥ 0` nanoseconds.
`Seconds` returns `float64(sec) + float64(nsec)/1e9` with `sec = d / Second`
and `nsec = d % Second`; the quotient and the sum are each rounded to 53
significant bits, ties to even. -/
def secondsTruncated (d : Nat) : Nat :=
  let sec := d / 10 ^ 9
  let nsec := d % 10 ^ 9
  if nsec = 0 then float64 sec
  else
    let e := fractionShift nsec
    let m := roundHalfEven (nsec * 2 ^ e) (10 ^ 9)
    let n := float64 sec * 2 ^ e + m
    let k := significandShift n
    roundHalfEven n (2 ^ k) * 2 ^ k / 2 ^ e

/-- The expression `uint64(d.Seconds())`: the fraction is discarded.  The
result is `none` when the truncated value is negative, for which the language
leaves the converted value to the implementation. -/
def uint64OfSeconds (d : Int) : Option Nat :=
  if 0 ≤ d then some (secondsTruncated d.toNat)
  else if secondsTruncated (-d).toNat = 0 then some 0
  else none

/-- The lines of `submitNetworkBalances.run` that compute `slotNumber` from
`header.Time`, `eth2Config.GenesisTime` and `eth2Config.SecondsPerSlot`.  The
result is `none` when the conversion is left to the implementation or the
division panics. -/
def submitNetworkBalances.slotNumber (headerTime genesisTime secondsPerSlot : Nat) :
    Option Nat :=
  let blockTime := timeUnix (int64 headerTime)
  let genesisTime := timeUnix (int64 genesisTime)
  let timeSinceGenesis := timeSub blockTime genesisTime
  match uint64OfSeconds timeSinceGenesis with
  | none => none
  | some seconds => if secondsPerSlot = 0 then none else some (seconds / secondsPerSlot)

/-- The lines of `submitRplPrice.run` that compute `slotNumber`; they are the
same as in `submitNetworkBalances.run`. -/
def submitRplPrice.slotNumber (headerTime genesisTime secondsPerSlot : Nat) : Option Nat :=
  let blockTime := timeUnix (int64 headerTime)
  let genesisTime := timeUnix (int64 genesisTime)
  let timeSinceGenesis := timeSub blockTime genesisTime
  match uint64OfSeconds timeSinceGenesis with
  | none => none
  | some seconds => if secondsPerSlot = 0 then none else some (seconds / secondsPerSlot)

/-! ## Reference formulas and input conditions -/

/-- The slot as the spec words it:
`floor((blockTimestamp - genesisTime) / secondsPerSlot)`. -/
def specSlot (blockTimestamp genesisTime secondsPerSlot : Nat) : Int :=
  Int.fdiv ((blockTimestamp : Int) - (genesisTime : Int)) (secondsPerSlot : Int)

/-- The collaborators of `getRplTwap` answer: a pool address is configured, the
client and the ABI are obtained, and `observe` returns the cumulative ticks
`tick0` (at the start of the window) and `tick1` (at its end) in that order. -/
def Observes (ext : TwapCollaborators) (tick0 tick1 : Int) : Prop :=
  ext.GetRplTwapPoolAddress ≠ "" ∧ ext.GetBestApiClient = .ok () ∧ ext.abiJSON = .ok ()
    ∧ ∃ rest spl, ext.observe = .ok { TickCumulatives := tick0 :: tick1 :: rest,
                                      SecondsPerLiquidityCumulativeX128s := spl }

/-- The average tick as the spec words it: `floor((tick1 - tick0) / Δ)` with
`Δ = 43200`. -/
def specAvgTick (tick0 tick1 : Int) : Int :=
  Int.fdiv (tick1 - tick0) 43200

/-- The price as the spec words it for a non-negative average tick:
`floor(10^36 / floor((B^avgTick * 10^18) / (10^18)^avgTick))` with
`B = 1000100000000000000`, every division being floor division. -/
def specTwapPrice (avgTick : Nat) : Int :=
  Int.fdiv (10 ^ 36) (Int.fdiv (1000100000000000000 ^ avgTick * 10 ^ 18) ((10 ^ 18) ^ avgTick))

/-- The price the comments of `getRplTwap` state for a tick,
`1e18 ^ 2 / (1.0001e18^tick * 1e18 / 1e18^tick)`, in exact rational
arithmetic and rounded down. -/
def commentedTwapPrice (tick : Int) : Int :=
  Int.floor ((10 ^ 18 : ℚ) ^ 2
    / ((1000100000000000000 : ℚ) ^ tick * 10 ^ 18 / (10 ^ 18 : ℚ) ^ tick))

/-- The collaborators of `getNetworkBalances` answer up to the snapshot: the
client and the state manager are obtained and `GetStateForSlot` returns `state`. -/
def Snapshot (ext : BalancesCollaborators) (state : NetworkState) : Prop :=
  ext.GetBestApiClient = .ok () ∧ ext.NewNetworkStateManager = .ok ()
    ∧ ext.GetStateForSlot = .ok state

/-- Every sub-computation of `getNetworkBalances` succeeds on the snapshot
`state`: the classification does not panic (a positive number of slots per
epoch), the interval duration is not zero, and the tree generator returns the
smoothing pool share `smoothingPoolShare`. -/
def AllSucceed (ext : BalancesCollaborators) (state : NetworkState) (smoothingPoolShare : Int) :
    Prop :=
  Snapshot ext state ∧ 0 < state.BeaconConfig.SlotsPerEpoch
    ∧ state.NetworkDetails.IntervalDuration ≠ 0
    ∧ ext.NewTreeGenerator = .ok ()
    ∧ ext.ApproximateStakerShareOfSmoothingPool = .ok smoothingPoolShare

/-- The user balance `getMinipoolBalanceDetails` returns for a position. -/
def userBalanceOf (state : NetworkState) (mpd : NativeMinipoolDetails) : Int :=
  match getMinipoolBalanceDetails mpd state with
  | some details => details.UserBalance
  | none => 0

/-- Whether `getMinipoolBalanceDetails` returns `IsStaking == true` for a position. -/
def isStakingOf (state : NetworkState) (mpd : NativeMinipoolDetails) : Bool :=
  match getMinipoolBalanceDetails mpd state with
  | some details => details.IsStaking
  | none => false

/-- All monetary inputs of a snapshot are non-negative: the balances of every
position and of every node, the protocol scalars, and the smoothing pool share
(validator balances are unsigned). -/
def NonNegativeInputs (state : NetworkState) (smoothingPoolShare : Int) : Prop :=
  (∀ mpd ∈ state.MinipoolDetails,
      0 ≤ mpd.UserDepositBalance ∧ 0 ≤ mpd.NodeDepositBalance ∧ 0 ≤ mpd.NodeRefundBalance
        ∧ 0 ≤ mpd.Balance ∧ 0 ≤ mpd.UserShareOfBalanceIncludingBeacon)
    ∧ (∀ node ∈ state.NodeDetails,
        0 ≤ node.DistributorBalanceUserETH ∧ 0 ≤ node.DepositCreditBalance)
    ∧ 0 ≤ state.NetworkDetails.DepositPoolBalance
    ∧ 0 ≤ state.NetworkDetails.DepositPoolUserBalance
    ∧ 0 ≤ state.NetworkDetails.RETHBalance
    ∧ 0 ≤ state.NetworkDetails.TotalRETHSupply
    ∧ 0 ≤ smoothingPoolShare

instance (state : NetworkState) (smoothingPoolShare : Int) :
    Decidable (NonNegativeInputs state smoothingPoolShare) := by
  unfold NonNegativeInputs
  infer_instance

/-- A position covers the amount the classifier subtracts from it, where it
subtracts one.  A position that is not vacant and whose status is none of
`Dissolved`, `Initialized`, `Prelaunch` reaches a subtraction in two cases: as
a version-2 `Variable` position, which must hold at least its node refund and
node deposit in `Balance` plus `10^9` times the validator balance as converted
to `float64`; and as a `Full` position without user deposit whose validator
exists and was activated before the current epoch, which must have a user
share of at least 16 ETH.  Every other position satisfies the condition. -/
def CoversSubtraction (state : NetworkState) (mpd : NativeMinipoolDetails) : Prop :=
  mpd.IsVacant = false ∧ mpd.Status ≠ MinipoolStatus.Dissolved
      ∧ mpd.Status ≠ MinipoolStatus.Initialized ∧ mpd.Status ≠ MinipoolStatus.Prelaunch →
    (mpd.DepositType = MinipoolDeposit.Variable ∧ mpd.Version = 2 →
        mpd.NodeRefundBalance + mpd.NodeDepositBalance
          ≤ mpd.Balance
            + (float64 (validatorDetailsAt state.ValidatorDetails mpd.Pubkey).Balance : Int)
                * 10 ^ 9)
      ∧ (mpd.DepositType = MinipoolDeposit.Full ∧ mpd.UserDepositBalance = 0
          ∧ (validatorDetailsAt state.ValidatorDetails mpd.Pubkey).Exists = true
          ∧ (validatorDetailsAt state.ValidatorDetails mpd.Pubkey).ActivationEpoch
              < state.BeaconSlotNumber / state.BeaconConfig.SlotsPerEpoch →
          16 * 10 ^ 18 ≤ mpd.UserShareOfBalanceIncludingBeacon)

instance (state : NetworkState) (mpd : NativeMinipoolDetails) :
    Decidable (CoversSubtraction state mpd) := by
  unfold CoversSubtraction
  infer_instance

/-- A field of the report is populated with a non-negative amount. -/
def fieldNonNeg : Option Int → Prop
  | some v => 0 ≤ v
  | none => False

/-! ## Concrete inputs -/

/-- Collaborators of `getNetworkBalances` that all answer: the snapshot is
`state` and the smoothing pool share is `share`. -/
def answering (state : NetworkState) (share : Int) : BalancesCollaborators :=
  { GetBestApiClient := .ok (), NewNetworkStateManager := .ok (), GetStateForSlot := .ok state,
    NewTreeGenerator := .ok (), ApproximateStakerShareOfSmoothingPool := .ok share }

/-- Collaborators of `getNetworkBalances` whose tree generator cannot be created. -/
def treegenFailing (state : NetworkState) : BalancesCollaborators :=
  { answering state 0 with NewTreeGenerator := .error "no rewards file" }

/-- Collaborators of `getRplTwap` that answer with the two cumulative ticks. -/
def observing (tick0 tick1 : Int) : TwapCollaborators :=
  { GetRplTwapPoolAddress := "0xe42318ea3b998e8355a3da364eb9d48ec725eb45",
    GetBestApiClient := .ok (), abiJSON := .ok (),
    observe := .ok { TickCumulatives := [tick0, tick1],
                     SecondsPerLiquidityCumulativeX128s := [0, 0] } }

/-- A snapshot with 32 slots per epoch at slot 3200 (epoch 100), holding the
given positions and validator records. -/
def sampleState (minipools : List NativeMinipoolDetails)
    (validators : List (Nat × ValidatorStatus)) : NetworkState :=
  { ElBlockNumber := 1, BeaconSlotNumber := 3200, BeaconConfig := { SlotsPerEpoch := 32 },
    NetworkDetails := { DepositPoolBalance := 0, DepositPoolUserBalance := 0, RETHBalance := 0,
                        TotalRETHSupply := 0, RewardIndex := 0, IntervalDuration := 1 },
    NodeDetails := [], MinipoolDetails := minipools, ValidatorDetails := validators,
    IsAtlasDeployed := true }

/-- A vacant position in `Prelaunch` with a user deposit of 16 ETH. -/
def vacantPrelaunch : NativeMinipoolDetails :=
  { Pubkey := 7, Status := .Prelaunch, DepositType := .Variable, Version := 3, IsVacant := true,
    UserDepositBalance := 16 * 10 ^ 18, NodeDepositBalance := 16 * 10 ^ 18,
    NodeRefundBalance := 0, Balance := 0, UserShareOfBalanceIncludingBeacon := 0 }

/-- A non-vacant position in `Prelaunch` with a user deposit of 24 ETH. -/
def occupiedPrelaunch : NativeMinipoolDetails :=
  { vacantPrelaunch with IsVacant := false, UserDepositBalance := 24 * 10 ^ 18 }

/-- A dissolved position whose other fields are all non-zero. -/
def dissolvedPosition : NativeMinipoolDetails :=
  { Pubkey := 7, Status := .Dissolved, DepositType := .Full, Version := 2, IsVacant := false,
    UserDepositBalance := 5, NodeDepositBalance := 6, NodeRefundBalance := 7, Balance := 8,
    UserShareOfBalanceIncludingBeacon := 9 }

/-- A `Full` position in the refund queue: no user deposit, a user share of 20 ETH. -/
def fullRefundQueue : NativeMinipoolDetails :=
  { Pubkey := 7, Status := .Staking, DepositType := .Full, Version := 3, IsVacant := false,
    UserDepositBalance := 0, NodeDepositBalance := 16 * 10 ^ 18, NodeRefundBalance := 0,
    Balance := 0, UserShareOfBalanceIncludingBeacon := 20 * 10 ^ 18 }

/-- A validator active since epoch 10 and exiting at epoch 1000, with the
given balance in gwei. -/
def activeValidator (balance : Nat) : ValidatorStatus :=
  { Exists := true, ActivationEpoch := 10, ExitEpoch := 1000, Balance := balance }

/-- A version-2 variable-deposit position holding 1 ETH on the execution layer. -/
def brokenLeb : NativeMinipoolDetails :=
  { Pubkey := 7, Status := .Staking, DepositType := .Variable, Version := 2, IsVacant := false,
    UserDepositBalance := 24 * 10 ^ 18, NodeDepositBalance := 8 * 10 ^ 18,
    NodeRefundBalance := 10 ^ 17, Balance := 10 ^ 18, UserShareOfBalanceIncludingBeacon := 0 }

/-- A snapshot with non-negative inputs only: the single position is
`brokenLeb` (1 ETH on the execution layer, 0.1 ETH node refund, 8 ETH node
deposit) and its validator is not known to the beacon chain. -/
def brokenLebState : NetworkState :=
  sampleState [brokenLeb] []

/-- A snapshot whose positions cover every subtraction: a `Full` position in
the refund queue with a user share of 20 ETH, a version-2 variable-deposit
position whose validator holds 32 ETH, a vacant position and a dissolved one. -/
def coveredState : NetworkState :=
  sampleState [fullRefundQueue, brokenLeb, vacantPrelaunch, dissolvedPosition]
    [(7, activeValidator 32000000000)]

/-! ## Properties of `float64` -/

theorem float64Shift_of_lt {n : Nat} (h : n < 2 ^ 53) : float64Shift n = 0 := by
  have h0 : n < 9007199254740992 := by simpa using h
  simp [float64Shift, List.range_succ_eq_map, List.find?, h0]

/-- Helper: integers below `2^53` are converted to `float64` without rounding. -/
theorem float64_of_lt {n : Nat} (h : n < 2 ^ 53) : float64 n = n := by
  simp [float64, float64Shift_of_lt h, Nat.mod_one]

/-! ## Properties of `getMinipoolBalanceDetails` -/

/-- Claim C1: a vacant or dissolved position is classified with user balance 0
and not staking, whatever its other fields, the validator records and the
snapshot (with a positive number of slots per epoch). -/
theorem getMinipoolBalanceDetails_vacant_or_dissolved
    (mpd : NativeMinipoolDetails) (state : NetworkState)
    (hslots : 0 < state.BeaconConfig.SlotsPerEpoch)
    (h : mpd.IsVacant = true ∨ mpd.Status = MinipoolStatus.Dissolved) :
    getMinipoolBalanceDetails mpd state = some { IsStaking := false, UserBalance := 0 } := by
  have hne : state.BeaconConfig.SlotsPerEpoch ≠ 0 := Nat.pos_iff_ne_zero.mp hslots
  unfold getMinipoolBalanceDetails
  rcases h with hv | hd
  · simp [hne, hv]
  · by_cases hv : mpd.IsVacant = true <;> simp [hne, hv, hd]

theorem getMinipoolBalanceDetails_vacant_or_dissolved_witness :
    getMinipoolBalanceDetails dissolvedPosition (sampleState [] [(7, activeValidator 32000000000)])
      = some { IsStaking := false, UserBalance := 0 } :=
  getMinipoolBalanceDetails_vacant_or_dissolved dissolvedPosition
    (sampleState [] [(7, activeValidator 32000000000)]) (by decide) (Or.inr rfl)

/-- Claim C2, as stated, fails: a vacant position in `Prelaunch` with a user
deposit of 16 ETH is classified with user balance 0, not with its deposit. -/
theorem getMinipoolBalanceDetails_prelaunch_counterexample :
    (vacantPrelaunch.Status = MinipoolStatus.Initialized
        ∨ vacantPrelaunch.Status = MinipoolStatus.Prelaunch)
      ∧ getMinipoolBalanceDetails vacantPrelaunch (sampleState [] [])
          = some { IsStaking := false, UserBalance := 0 }
      ∧ getMinipoolBalanceDetails vacantPrelaunch (sampleState [] [])
          ≠ some { IsStaking := false, UserBalance := vacantPrelaunch.UserDepositBalance } := by
  decide

/-- Claim C2, amended: a position that is not vacant and whose status is
`Initialized` or `Prelaunch` is classified with user balance equal to its
`UserDepositBalance` and not staking (with a positive number of slots per epoch). -/
theorem getMinipoolBalanceDetails_initialized_or_prelaunch
    (mpd : NativeMinipoolDetails) (state : NetworkState)
    (hslots : 0 < state.BeaconConfig.SlotsPerEpoch)
    (hvacant : mpd.IsVacant = false)
    (h : mpd.Status = MinipoolStatus.Initialized ∨ mpd.Status = MinipoolStatus.Prelaunch) :
    getMinipoolBalanceDetails mpd state
      = some { IsStaking := false, UserBalance := mpd.UserDepositBalance } := by
  have hne : state.BeaconConfig.SlotsPerEpoch ≠ 0 := Nat.pos_iff_ne_zero.mp hslots
  unfold getMinipoolBalanceDetails
  rcases h with h | h <;> simp [hne, hvacant, h]

theorem getMinipoolBalanceDetails_initialized_or_prelaunch_witness :
    getMinipoolBalanceDetails occupiedPrelaunch (sampleState [] [])
      = some { IsStaking := false, UserBalance := 24 * 10 ^ 18 } :=
  getMinipoolBalanceDetails_initialized_or_prelaunch occupiedPrelaunch (sampleState [] [])
    (by decide) rfl (Or.inr rfl)

/-- Claim C3: a non-vacant `Full` position with no user deposit, whose status is
past `Prelaunch` and not `Dissolved` (none of `Initialized`, `Prelaunch`,
`Dissolved`), whose validator exists and was activated before the current
epoch, is classified with user balance
`UserShareOfBalanceIncludingBeacon - 16 ETH` and is staking exactly when the
exit epoch is after the current epoch; with a share of 20 ETH and a future exit
epoch the result is (4 ETH, staking). -/
theorem getMinipoolBalanceDetails_full_refund_queue
    (mpd : NativeMinipoolDetails) (state : NetworkState)
    (hslots : 0 < state.BeaconConfig.SlotsPerEpoch)
    (hvacant : mpd.IsVacant = false)
    (htype : mpd.DepositType = MinipoolDeposit.Full)
    (hdeposit : mpd.UserDepositBalance = 0)
    (hi : mpd.Status ≠ MinipoolStatus.Initialized)
    (hp : mpd.Status ≠ MinipoolStatus.Prelaunch)
    (hd : mpd.Status ≠ MinipoolStatus.Dissolved)
    (hexists : (validatorDetailsAt state.ValidatorDetails mpd.Pubkey).Exists = true)
    (hactive : (validatorDetailsAt state.ValidatorDetails mpd.Pubkey).ActivationEpoch
      < state.BeaconSlotNumber / state.BeaconConfig.SlotsPerEpoch) :
    getMinipoolBalanceDetails mpd state
        = some { IsStaking := decide ((validatorDetailsAt state.ValidatorDetails mpd.Pubkey).ExitEpoch
                               > state.BeaconSlotNumber / state.BeaconConfig.SlotsPerEpoch),
                 UserBalance := mpd.UserShareOfBalanceIncludingBeacon - 16 * 10 ^ 18 }
      ∧ (mpd.UserShareOfBalanceIncludingBeacon = 20 * 10 ^ 18 →
          (validatorDetailsAt state.ValidatorDetails mpd.Pubkey).ExitEpoch
            > state.BeaconSlotNumber / state.BeaconConfig.SlotsPerEpoch →
          getMinipoolBalanceDetails mpd state
            = some { IsStaking := true, UserBalance := 4 * 10 ^ 18 }) := by
  have hne : state.BeaconConfig.SlotsPerEpoch ≠ 0 := Nat.pos_iff_ne_zero.mp hslots
  have hmain : getMinipoolBalanceDetails mpd state
        = some { IsStaking := decide ((validatorDetailsAt state.ValidatorDetails mpd.Pubkey).ExitEpoch
                               > state.BeaconSlotNumber / state.BeaconConfig.SlotsPerEpoch),
                 UserBalance := mpd.UserShareOfBalanceIncludingBeacon - 16 * 10 ^ 18 } := by
    unfold getMinipoolBalanceDetails
    simp [hne, hvacant, hi, hp, hd, htype, hdeposit, hexists, hactive, EthToWei_16]
  refine ⟨hmain, ?_⟩
  intro hshare hexit
  rw [hmain, hshare]
  simp only [gt_iff_lt] at hexit
  simp [hexit]

theorem getMinipoolBalanceDetails_full_refund_queue_witness :
    getMinipoolBalanceDetails fullRefundQueue (sampleState [] [(7, activeValidator 32000000000)])
      = some { IsStaking := true, UserBalance := 4 * 10 ^ 18 } :=
  (getMinipoolBalanceDetails_full_refund_queue fullRefundQueue
    (sampleState [] [(7, activeValidator 32000000000)]) (by decide) rfl rfl rfl
    (by decide) (by decide) (by decide) (by decide) (by decide)).2 (by decide) (by decide)

/-- Claim C10, as stated, fails: for a version-2 variable-deposit position whose
validator holds `2^53 + 1` gwei, the conversion to `float64` rounds the balance
to `2^53` gwei before it is scaled to wei, so the user balance is `10^9` wei
less than the formula of the claim. -/
theorem getMinipoolBalanceDetails_broken_leb_counterexample :
    brokenLeb.IsVacant = false ∧ brokenLeb.DepositType = MinipoolDeposit.Variable
      ∧ brokenLeb.Version = 2 ∧ brokenLeb.Status = MinipoolStatus.Staking
      ∧ validatorDetailsAt (sampleState [] [(7, activeValidator 9007199254740993)]).ValidatorDetails
          brokenLeb.Pubkey = activeValidator 9007199254740993
      ∧ getMinipoolBalanceDetails brokenLeb (sampleState [] [(7, activeValidator 9007199254740993)])
          = some { IsStaking := true,
                   UserBalance := brokenLeb.Balance + 9007199254740992 * 10 ^ 9
                     - brokenLeb.NodeRefundBalance - brokenLeb.NodeDepositBalance }
      ∧ getMinipoolBalanceDetails brokenLeb (sampleState [] [(7, activeValidator 9007199254740993)])
          ≠ some { IsStaking := true,
                   UserBalance := brokenLeb.Balance + 9007199254740993 * 10 ^ 9
                     - brokenLeb.NodeRefundBalance - brokenLeb.NodeDepositBalance } := by
  decide

/-- Claim C10, amended: a non-vacant position with `DepositType = Variable` and
`Version = 2` whose status is none of `Dissolved`, `Initialized`, `Prelaunch` is
classified with user balance `Balance + w - NodeRefundBalance - NodeDepositBalance`,
where `w` is `10^9` times the validator balance after its conversion to
`float64`; `w` is `10^9` times the validator balance itself whenever that balance
is below `2^53` gwei.  The position is staking exactly when the validator
exists, `ActivationEpoch < current epoch` and `ExitEpoch > current epoch`. -/
theorem getMinipoolBalanceDetails_broken_leb
    (mpd : NativeMinipoolDetails) (state : NetworkState)
    (hslots : 0 < state.BeaconConfig.SlotsPerEpoch)
    (hvacant : mpd.IsVacant = false)
    (htype : mpd.DepositType = MinipoolDeposit.Variable)
    (hversion : mpd.Version = 2)
    (hd : mpd.Status ≠ MinipoolStatus.Dissolved)
    (hi : mpd.Status ≠ MinipoolStatus.Initialized)
    (hp : mpd.Status ≠ MinipoolStatus.Prelaunch) :
    getMinipoolBalanceDetails mpd state
        = some { IsStaking :=
                   decide ((validatorDetailsAt state.ValidatorDetails mpd.Pubkey).Exists = true
                     ∧ (validatorDetailsAt state.ValidatorDetails mpd.Pubkey).ActivationEpoch
                         < state.BeaconSlotNumber / state.BeaconConfig.SlotsPerEpoch
                     ∧ (validatorDetailsAt state.ValidatorDetails mpd.Pubkey).ExitEpoch
                         > state.BeaconSlotNumber / state.BeaconConfig.SlotsPerEpoch),
                 UserBalance := mpd.Balance
                   + (float64 (validatorDetailsAt state.ValidatorDetails mpd.Pubkey).Balance : Int)
                       * 10 ^ 9
                   - mpd.NodeRefundBalance - mpd.NodeDepositBalance }
      ∧ ((validatorDetailsAt state.ValidatorDetails mpd.Pubkey).Balance < 2 ^ 53 →
          float64 (validatorDetailsAt state.ValidatorDetails mpd.Pubkey).Balance
            = (validatorDetailsAt state.ValidatorDetails mpd.Pubkey).Balance) := by
  have hne : state.BeaconConfig.SlotsPerEpoch ≠ 0 := Nat.pos_iff_ne_zero.mp hslots
  refine ⟨?_, fun hlt => float64_of_lt hlt⟩
  unfold getMinipoolBalanceDetails
  simp [hne, hvacant, hd, hi, hp, htype, hversion, GweiToWei, Bool.and_assoc]

theorem getMinipoolBalanceDetails_broken_leb_witness :
    getMinipoolBalanceDetails brokenLeb (sampleState [] [(7, activeValidator 32000000000)])
      = some { IsStaking := true, UserBalance := 10 ^ 18 + 32000000000 * 10 ^ 9 - 10 ^ 17 - 8 * 10 ^ 18 } := by
  have h := getMinipoolBalanceDetails_broken_leb brokenLeb
    (sampleState [] [(7, activeValidator 32000000000)]) (by decide) rfl rfl rfl
    (by decide) (by decide) (by decide)
  rw [h.1]
  decide

/-! ## Properties of `getRplTwap` -/

theorem bigExp_pos {x : Int} (hx : 0 < x) (y : Int) : 0 < bigExp x y := by
  unfold bigExp
  split
  · exact Int.one_pos
  · exact pow_pos hx _

theorem bigExp_of_nonpos (x : Int) {y : Int} (hy : y ≤ 0) : bigExp x y = 1 := by
  simp [bigExp, hy]

theorem bigExp_of_nonneg (x : Int) {y : Int} (hy : 0 ≤ y) : bigExp x y = x ^ y.toNat := by
  unfold bigExp
  split
  · have h0 : y = 0 := le_antisymm (by assumption) hy
    simp [h0]
  · rfl

/-- Helper: the divisor of the final division is at least `10^18`, for every tick. -/
theorem twap_denominator_ge (tick : Int) :
    (10 : Int) ^ 18 ≤ (bigExp EthToWei_1_0001 tick * EthToWei_1) / bigExp EthToWei_1 tick := by
  have hone : (0 : Int) < EthToWei_1 := by decide
  apply Int.le_ediv_of_mul_le (bigExp_pos hone tick)
  unfold bigExp
  split
  · simp [EthToWei_1]
  · have hle : EthToWei_1 ^ tick.toNat ≤ EthToWei_1_0001 ^ tick.toNat :=
      pow_le_pow_left₀ (le_of_lt hone) (by decide) _
    have h18 : (10 : Int) ^ 18 = EthToWei_1 := rfl
    rw [h18, mul_comm]
    exact mul_le_mul_of_nonneg_right hle (le_of_lt hone)

/-- Helper: when the collaborators answer with the cumulative ticks, `getRplTwap`
returns the quotient computed from the average tick. -/
theorem getRplTwap_of_observes (ext : TwapCollaborators) (blockNumber : Nat) (tick0 tick1 : Int)
    (h : Observes ext tick0 tick1) :
    getRplTwap ext blockNumber
      = some (.ok ((EthToWei_1 * EthToWei_1)
          / ((bigExp EthToWei_1_0001 ((tick1 - tick0) / 43200) * EthToWei_1)
              / bigExp EthToWei_1 ((tick1 - tick0) / 43200)))) := by
  obtain ⟨hpool, hclient, habi, rest, spl, hobs⟩ := h
  have hone : (0 : Int) < EthToWei_1 := by decide
  have hden := twap_denominator_ge ((tick1 - tick0) / 43200)
  have hexp := bigExp_pos hone ((tick1 - tick0) / 43200)
  have hden0 : (bigExp EthToWei_1_0001 ((tick1 - tick0) / 43200) * EthToWei_1)
      / bigExp EthToWei_1 ((tick1 - tick0) / 43200) ≠ 0 := by
    have : (0 : Int) < 10 ^ 18 := by decide
    omega
  unfold getRplTwap
  simp [hpool, hclient, habi, hobs, bigDiv, twapNumberOfSeconds, ne_of_gt hexp, hden0]

/-- Claim C4, evaluated at the failing input: with `tick1 - tick0 = -4320000`
(average tick `-100`) `getRplTwap` returns exactly `10^18`, the price it
returns for average tick 0, and not a price strictly less than `10^18`; the
formula in the comments of the source gives `1010049662092876568` there. -/
theorem getRplTwap_negative_tick_evaluation :
    getRplTwap (observing 0 (-4320000)) 17000000 = some (.ok (10 ^ 18))
      ∧ getRplTwap (observing 0 0) 17000000 = some (.ok (10 ^ 18))
      ∧ (¬ ∃ price : Int, getRplTwap (observing 0 (-4320000)) 17000000 = some (.ok price)
            ∧ 0 < price ∧ price < 10 ^ 18)
      ∧ commentedTwapPrice (-100) = 1010049662092876568 := by
  have h : getRplTwap (observing 0 (-4320000)) 17000000 = some (.ok (10 ^ 18)) := by decide
  refine ⟨h, by decide, ?_, ?_⟩
  · rintro ⟨price, hp, -, hlt⟩
    rw [h] at hp
    injection hp with hp
    injection hp with hp
    omega
  · unfold commentedTwapPrice
    rw [Int.floor_eq_iff]
    constructor <;> norm_num

/-- Claim C5: with cumulative ticks `tick0 = 0` and `tick1 = 0` over the window
of 43200 seconds (average tick 0), `getRplTwap` returns exactly `10^18`. -/
theorem getRplTwap_zero_tick (ext : TwapCollaborators) (blockNumber : Nat)
    (h : Observes ext 0 0) :
    getRplTwap ext blockNumber = some (.ok (10 ^ 18)) := by
  rw [getRplTwap_of_observes ext blockNumber 0 0 h]
  decide

theorem getRplTwap_zero_tick_witness :
    getRplTwap (observing 0 0) 17000000 = some (.ok (10 ^ 18)) :=
  getRplTwap_zero_tick (observing 0 0) 17000000 ⟨by decide, rfl, rfl, [], [0, 0], rfl⟩

/-- Claim C6: whenever the average tick `floor((tick1 - tick0) / 43200)` is
non-negative, the price returned by `getRplTwap` is
`floor(10^36 / floor((B^avgTick * 10^18) / (10^18)^avgTick))` with
`B = 1000100000000000000`. -/
theorem getRplTwap_eq_specTwapPrice (ext : TwapCollaborators) (blockNumber : Nat)
    (tick0 tick1 : Int) (h : Observes ext tick0 tick1)
    (hnonneg : 0 ≤ specAvgTick tick0 tick1) :
    getRplTwap ext blockNumber = some (.ok (specTwapPrice (specAvgTick tick0 tick1).toNat)) := by
  have havg : specAvgTick tick0 tick1 = (tick1 - tick0) / 43200 :=
    Int.fdiv_eq_ediv _ (by decide)
  rw [havg] at hnonneg
  have hone : (0 : Int) < EthToWei_1 := by decide
  have hpow : (0 : Int) ≤ (10 ^ 18) ^ ((tick1 - tick0) / 43200).toNat :=
    pow_nonneg (by decide) _
  have hden : (0 : Int) ≤ (1000100000000000000 ^ ((tick1 - tick0) / 43200).toNat * 10 ^ 18)
      / (10 ^ 18) ^ ((tick1 - tick0) / 43200).toNat :=
    Int.ediv_nonneg (mul_nonneg (pow_nonneg (by decide) _) (by decide)) hpow
  rw [getRplTwap_of_observes ext blockNumber tick0 tick1 h, havg, specTwapPrice,
    Int.fdiv_eq_ediv _ hpow, Int.fdiv_eq_ediv _ hden,
    bigExp_of_nonneg _ hnonneg, bigExp_of_nonneg _ hnonneg]
  rfl

theorem getRplTwap_eq_specTwapPrice_witness :
    getRplTwap (observing 1000 130000) 17000000
      = some (.ok (specTwapPrice (specAvgTick 1000 130000).toNat)) :=
  getRplTwap_eq_specTwapPrice (observing 1000 130000) 17000000 1000 130000
    ⟨by decide, rfl, rfl, [], [0, 0], rfl⟩ (by decide)

/-! ## Properties of `getNetworkBalances` -/

theorem getMinipoolBalanceDetails_eq_some (mpd : NativeMinipoolDetails) (state : NetworkState)
    (hslots : 0 < state.BeaconConfig.SlotsPerEpoch) :
    getMinipoolBalanceDetails mpd state
      = some { IsStaking := isStakingOf state mpd, UserBalance := userBalanceOf state mpd } := by
  have hne : state.BeaconConfig.SlotsPerEpoch ≠ 0 := Nat.pos_iff_ne_zero.mp hslots
  have hsome : ∃ d, getMinipoolBalanceDetails mpd state = some d := by
    unfold getMinipoolBalanceDetails
    simp only [hne, if_false]
    repeat' split
    all_goals exact ⟨_, rfl⟩
  obtain ⟨d, hd⟩ := hsome
  simp [isStakingOf, userBalanceOf, hd]

/-- Helper: with a positive number of slots per epoch the first goroutine
fills `mpBalanceDetails` with the classification of every position. -/
theorem minipoolBalanceLoop_eq (state : NetworkState)
    (hslots : 0 < state.BeaconConfig.SlotsPerEpoch) (mpds : List NativeMinipoolDetails) :
    minipoolBalanceLoop state mpds
      = some (mpds.map fun mpd =>
          { IsStaking := isStakingOf state mpd, UserBalance := userBalanceOf state mpd }) := by
  induction mpds with
  | nil => rfl
  | cons mpd rest ih =>
    simp [minipoolBalanceLoop, getMinipoolBalanceDetails_eq_some mpd state hslots, ih]

theorem addMinipoolBalances_foldl (ds : List minipoolBalanceDetails) (total staking : Int) :
    ds.foldl
        (fun acc mp =>
          let total := acc.1 + mp.UserBalance
          if mp.IsStaking then (total, acc.2 + mp.UserBalance) else (total, acc.2))
        (total, staking)
      = (total + (ds.map fun d => d.UserBalance).sum,
         staking + ((ds.filter fun d => d.IsStaking).map fun d => d.UserBalance).sum) := by
  induction ds generalizing total staking with
  | nil => simp
  | cons d rest ih =>
    by_cases hd : d.IsStaking = true
    · simp [List.foldl, hd, ih, add_assoc]
    · simp [List.foldl, hd, ih, add_assoc]

/-- Helper: the loop `Add minipool balances` computes the sum of all user
balances and the sum of the user balances of the staking entries. -/
theorem addMinipoolBalances_eq (ds : List minipoolBalanceDetails) :
    addMinipoolBalances ds
      = ((ds.map fun d => d.UserBalance).sum,
         ((ds.filter fun d => d.IsStaking).map fun d => d.UserBalance).sum) := by
  unfold addMinipoolBalances
  rw [addMinipoolBalances_foldl]
  simp

theorem foldl_add_nonneg {α : Type} (f : α → Int) (l : List α) (hl : ∀ x ∈ l, 0 ≤ f x)
    (init : Int) (hinit : 0 ≤ init) : 0 ≤ l.foldl (fun acc x => acc + f x) init := by
  induction l generalizing init with
  | nil => simpa using hinit
  | cons x rest ih =>
    simp only [List.foldl]
    apply ih
    · intro y hy
      exact hl y (List.mem_cons_of_mem _ hy)
    · exact add_nonneg hinit (hl x (List.mem_cons_self _ _))

/-- Helper: the report `getNetworkBalances` returns when every sub-computation
succeeds. -/
theorem getNetworkBalances_of_allSucceed (ext : BalancesCollaborators) (state : NetworkState)
    (share : Int) (h : AllSucceed ext state share)
    (elBlockHeaderNumber elBlock : Int) (beaconBlock : Nat) (isAtlasDeployed : Bool) :
    getNetworkBalances ext elBlockHeaderNumber elBlock beaconBlock isAtlasDeployed
      = some ({ Block := elBlockHeaderNumber.natAbs % 2 ^ 64,
                DepositPool := some (if isAtlasDeployed then
                    state.NetworkDetails.DepositPoolUserBalance
                  else state.NetworkDetails.DepositPoolBalance),
                MinipoolsTotal := some (state.MinipoolDetails.map (userBalanceOf state)).sum,
                MinipoolsStaking := some
                  ((state.MinipoolDetails.filter (isStakingOf state)).map (userBalanceOf state)).sum,
                DistributorShareTotal :=
                  some (addDistributorShares (distributorShareLoop state.NodeDetails)),
                SmoothingPoolShare := some share,
                RETHContract := some state.NetworkDetails.RETHBalance,
                RETHSupply := some state.NetworkDetails.TotalRETHSupply,
                NodeCreditBalance := some (addNodeCredits state) }, none) := by
  obtain ⟨⟨hclient, hmgr, hstate⟩, hslots, hinterval, htree, hshare⟩ := h
  unfold getNetworkBalances
  simp only [hclient, hmgr, hstate, minipoolBalanceLoop_eq state hslots, smoothingPoolTask,
    hinterval, if_false, htree, hshare, addMinipoolBalances_eq]
  simp [List.map_map, List.filter_map, Function.comp_def]

theorem userBalanceOf_nonneg (state : NetworkState) (mpd : NativeMinipoolDetails)
    (hdeposit : 0 ≤ mpd.UserDepositBalance) (hshare : 0 ≤ mpd.UserShareOfBalanceIncludingBeacon)
    (hcover : CoversSubtraction state mpd) : 0 ≤ userBalanceOf state mpd := by
  unfold userBalanceOf getMinipoolBalanceDetails
  simp only [EthToWei_16, GweiToWei]
  by_cases h0 : state.BeaconConfig.SlotsPerEpoch = 0
  · simp [h0]
  by_cases h1 : mpd.IsVacant = true
  · simp [h0, h1]
  by_cases h2 : mpd.Status = MinipoolStatus.Dissolved
  · simp [h0, h1, h2]
  have h1f : mpd.IsVacant = false := by simpa using h1
  by_cases h3 : mpd.Status = MinipoolStatus.Initialized ∨ mpd.Status = MinipoolStatus.Prelaunch
  · simp only [h0, h1f, h2, h3, if_true, if_false, Bool.false_eq_true]
    exact hdeposit
  have hreach := hcover ⟨h1f, h2, fun h => h3 (Or.inl h), fun h => h3 (Or.inr h)⟩
  by_cases h4 : mpd.DepositType = MinipoolDeposit.Variable ∧ mpd.Version = 2
  · have hvar := hreach.1 h4
    simp only [h0, h1f, h2, h3, h4, and_self, if_true, if_false, Bool.false_eq_true]
    omega
  by_cases h5 : (validatorDetailsAt state.ValidatorDetails mpd.Pubkey).Exists = false
      ∨ (validatorDetailsAt state.ValidatorDetails mpd.Pubkey).ActivationEpoch
          ≥ state.BeaconSlotNumber / state.BeaconConfig.SlotsPerEpoch
  · simp only [h0, h1f, h2, h3, h4, h5, if_true, if_false, Bool.false_eq_true]
    exact hdeposit
  by_cases h6 : mpd.UserDepositBalance = 0 ∧ mpd.DepositType = MinipoolDeposit.Full
  · have hexists : (validatorDetailsAt state.ValidatorDetails mpd.Pubkey).Exists = true := by
      by_contra hne
      exact h5 (Or.inl (by simpa using hne))
    have hactive : (validatorDetailsAt state.ValidatorDetails mpd.Pubkey).ActivationEpoch
        < state.BeaconSlotNumber / state.BeaconConfig.SlotsPerEpoch := by
      by_contra hge
      exact h5 (Or.inr (Nat.le_of_not_lt hge))
    have hfull := hreach.2 ⟨h6.2, h6.1, hexists, hactive⟩
    simp only [h0, h1f, h2, h3, h5, h6, and_self, if_true, if_false, Bool.false_eq_true,
      reduceCtorEq, false_and]
    omega
  · simp only [h0, h1f, h2, h3, h4, h5, h6, if_true, if_false, Bool.false_eq_true]
    exact hshare

/-- Claim C7, as stated, fails: on a snapshot whose inputs are all non-negative
and whose single position is a version-2 variable-deposit position holding
1 ETH against a node refund of 0.1 ETH and a node deposit of 8 ETH, the report
is returned with `MinipoolsTotal = -7.1 ETH`. -/
theorem getNetworkBalances_nonneg_counterexample :
    NonNegativeInputs brokenLebState 0
      ∧ (getNetworkBalances (answering brokenLebState 0) 1 1 3200 true).map
          (fun r => (r.1.MinipoolsTotal, r.2)) = some (some (-7100000000000000000), none)
      ∧ ¬ ∀ r, getNetworkBalances (answering brokenLebState 0) 1 1 3200 true = some (r, none) →
          fieldNonNeg r.MinipoolsTotal := by
  have h : getNetworkBalances (answering brokenLebState 0) 1 1 3200 true
      = some ({ Block := 1, DepositPool := some 0, MinipoolsTotal := some (-7100000000000000000),
                MinipoolsStaking := some 0, DistributorShareTotal := some 0,
                SmoothingPoolShare := some 0, RETHContract := some 0, RETHSupply := some 0,
                NodeCreditBalance := some 0 }, none) := by
    decide
  refine ⟨by decide, by rw [h]; rfl, ?_⟩
  intro hall
  have hneg := hall _ h
  simp [fieldNonNeg] at hneg

/-- Claim C7, amended: on a snapshot whose monetary inputs are all non-negative
and on which every sub-computation succeeds, the report fields `DepositPool`,
`DistributorShareTotal`, `SmoothingPoolShare`, `RETHContract`, `RETHSupply` and
`NodeCreditBalance` are non-negative; `MinipoolsTotal` and `MinipoolsStaking`
are non-negative when in addition every position from which the classifier
subtracts covers the subtraction.  These are the positions that are not vacant
and whose status is none of `Dissolved`, `Initialized`, `Prelaunch`: a `Variable`
position of version 2 must have
`NodeRefundBalance + NodeDepositBalance ≤ Balance + 10^9 * float64(validator balance)`,
and a `Full` position without user deposit whose validator exists and was
activated before the current epoch must have
`UserShareOfBalanceIncludingBeacon ≥ 16 * 10^18`. -/
theorem getNetworkBalances_nonneg (ext : BalancesCollaborators) (state : NetworkState)
    (share : Int) (h : AllSucceed ext state share) (hin : NonNegativeInputs state share)
    (elBlockHeaderNumber elBlock : Int) (beaconBlock : Nat) (isAtlasDeployed : Bool) :
    ∃ report, getNetworkBalances ext elBlockHeaderNumber elBlock beaconBlock isAtlasDeployed
        = some (report, none)
      ∧ fieldNonNeg report.DepositPool ∧ fieldNonNeg report.DistributorShareTotal
      ∧ fieldNonNeg report.SmoothingPoolShare ∧ fieldNonNeg report.RETHContract
      ∧ fieldNonNeg report.RETHSupply ∧ fieldNonNeg report.NodeCreditBalance
      ∧ ((∀ mpd ∈ state.MinipoolDetails, CoversSubtraction state mpd) →
          fieldNonNeg report.MinipoolsTotal ∧ fieldNonNeg report.MinipoolsStaking) := by
  obtain ⟨hmp, hnode, hdp, hdpu, hreth, hsupply, hshare⟩ := hin
  refine ⟨_, getNetworkBalances_of_allSucceed ext state share h elBlockHeaderNumber elBlock
    beaconBlock isAtlasDeployed, ?_, ?_, hshare, hreth, hsupply, ?_, ?_⟩
  · show 0 ≤ (if isAtlasDeployed then _ else _)
    split <;> assumption
  · show 0 ≤ addDistributorShares (distributorShareLoop state.NodeDetails)
    unfold addDistributorShares distributorShareLoop
    rw [List.foldl_map]
    exact foldl_add_nonneg _ _ (fun node hn => (hnode node hn).1) 0 (le_refl _)
  · show 0 ≤ addNodeCredits state
    unfold addNodeCredits
    split
    · exact foldl_add_nonneg _ _ (fun node hn => (hnode node hn).2) 0 (le_refl _)
    · exact le_refl _
  · intro hcover
    have hnn : ∀ mpd ∈ state.MinipoolDetails, 0 ≤ userBalanceOf state mpd := fun mpd hm =>
      userBalanceOf_nonneg state mpd (hmp mpd hm).1 (hmp mpd hm).2.2.2.2 (hcover mpd hm)
    constructor
    · show 0 ≤ (state.MinipoolDetails.map (userBalanceOf state)).sum
      apply List.sum_nonneg
      intro x hx
      obtain ⟨mpd, hm, rfl⟩ := List.mem_map.mp hx
      exact hnn mpd hm
    · show 0 ≤ ((state.MinipoolDetails.filter (isStakingOf state)).map (userBalanceOf state)).sum
      apply List.sum_nonneg
      intro x hx
      obtain ⟨mpd, hm, rfl⟩ := List.mem_map.mp hx
      exact hnn mpd (List.mem_of_mem_filter hm)

theorem getNetworkBalances_nonneg_witness :
    ∃ report, getNetworkBalances (answering coveredState 5) 1 1 3200 true = some (report, none)
      ∧ fieldNonNeg report.DepositPool ∧ fieldNonNeg report.DistributorShareTotal
      ∧ fieldNonNeg report.SmoothingPoolShare ∧ fieldNonNeg report.RETHContract
      ∧ fieldNonNeg report.RETHSupply ∧ fieldNonNeg report.NodeCreditBalance
      ∧ fieldNonNeg report.MinipoolsTotal ∧ fieldNonNeg report.MinipoolsStaking := by
  obtain ⟨report, hreport, h1, h2, h3, h4, h5, h6, hsums⟩ :=
    getNetworkBalances_nonneg (answering coveredState 5) coveredState 5
      ⟨⟨rfl, rfl, rfl⟩, by decide, by decide, rfl, rfl⟩ (by decide) 1 1 3200 true
  exact ⟨report, hreport, h1, h2, h3, h4, h5, h6, hsums (by decide)⟩

/-- Claim C8: when the snapshot is obtained, the classification does not panic
and the smoothing pool sub-computation fails (the tree generator cannot be
created, or `ApproximateStakerShareOfSmoothingPool` fails), `getNetworkBalances`
returns the zero report `networkBalances{}` together with an error that wraps
the failure. -/
theorem getNetworkBalances_smoothing_pool_failure (ext : BalancesCollaborators)
    (state : NetworkState) (failure : String)
    (hsnapshot : Snapshot ext state)
    (hslots : 0 < state.BeaconConfig.SlotsPerEpoch)
    (hinterval : state.NetworkDetails.IntervalDuration ≠ 0)
    (hfail : ext.NewTreeGenerator = .error failure
      ∨ (ext.NewTreeGenerator = .ok ()
          ∧ ext.ApproximateStakerShareOfSmoothingPool = .error failure))
    (elBlockHeaderNumber elBlock : Int) (beaconBlock : Nat) (isAtlasDeployed : Bool) :
    ∃ message, getNetworkBalances ext elBlockHeaderNumber elBlock beaconBlock isAtlasDeployed
        = some (networkBalancesZero, some message)
      ∧ (message = "error creating merkle tree generator to approximate share of smoothing pool: "
            ++ failure
          ∨ message = "error getting approximate share of smoothing pool: " ++ failure) := by
  obtain ⟨hclient, hmgr, hstate⟩ := hsnapshot
  rcases hfail with htree | ⟨htree, happrox⟩
  · refine ⟨_, ?_, Or.inl rfl⟩
    unfold getNetworkBalances
    simp only [hclient, hmgr, hstate, minipoolBalanceLoop_eq state hslots, smoothingPoolTask,
      hinterval, if_false, htree]
  · refine ⟨_, ?_, Or.inr rfl⟩
    unfold getNetworkBalances
    simp only [hclient, hmgr, hstate, minipoolBalanceLoop_eq state hslots, smoothingPoolTask,
      hinterval, if_false, htree, happrox]

theorem getNetworkBalances_smoothing_pool_failure_witness :
    ∃ message, getNetworkBalances (treegenFailing (sampleState [fullRefundQueue] [])) 1 1 3200 true
        = some (networkBalancesZero, some message)
      ∧ (message = "error creating merkle tree generator to approximate share of smoothing pool: "
            ++ "no rewards file"
          ∨ message = "error getting approximate share of smoothing pool: "
            ++ "no rewards file") :=
  getNetworkBalances_smoothing_pool_failure (treegenFailing (sampleState [fullRefundQueue] []))
    (sampleState [fullRefundQueue] []) "no rewards file" ⟨rfl, rfl, rfl⟩ (by decide) (by decide)
    (Or.inl rfl) 1 1 3200 true

/-- Claim C9: when every sub-computation succeeds, the report is returned with
`MinipoolsTotal` equal to the sum over all positions of the user balance
`getMinipoolBalanceDetails` returns, and `MinipoolsStaking` equal to the sum of
those user balances over the positions classified as staking. -/
theorem getNetworkBalances_minipool_sums (ext : BalancesCollaborators) (state : NetworkState)
    (share : Int) (h : AllSucceed ext state share)
    (elBlockHeaderNumber elBlock : Int) (beaconBlock : Nat) (isAtlasDeployed : Bool) :
    ∃ report, getNetworkBalances ext elBlockHeaderNumber elBlock beaconBlock isAtlasDeployed
        = some (report, none)
      ∧ report.MinipoolsTotal = some (state.MinipoolDetails.map (userBalanceOf state)).sum
      ∧ report.MinipoolsStaking
          = some ((state.MinipoolDetails.filter (isStakingOf state)).map
              (userBalanceOf state)).sum :=
  ⟨_, getNetworkBalances_of_allSucceed ext state share h elBlockHeaderNumber elBlock
    beaconBlock isAtlasDeployed, rfl, rfl⟩

theorem getNetworkBalances_minipool_sums_witness :
    ∃ report, getNetworkBalances
          (answering (sampleState [fullRefundQueue, occupiedPrelaunch, dissolvedPosition]
            [(7, activeValidator 32000000000)]) 5) 1 1 3200 true = some (report, none)
      ∧ report.MinipoolsTotal = some (28 * 10 ^ 18)
      ∧ report.MinipoolsStaking = some (4 * 10 ^ 18) := by
  obtain ⟨report, hreport, htotal, hstaking⟩ := getNetworkBalances_minipool_sums
    (answering (sampleState [fullRefundQueue, occupiedPrelaunch, dissolvedPosition]
      [(7, activeValidator 32000000000)]) 5)
    (sampleState [fullRefundQueue, occupiedPrelaunch, dissolvedPosition]
      [(7, activeValidator 32000000000)]) 5
    ⟨⟨rfl, rfl, rfl⟩, by decide, by decide, rfl, rfl⟩ 1 1 3200 true
  refine ⟨report, hreport, ?_, ?_⟩
  · rw [htotal]; decide
  · rw [hstaking]; decide

/-! ## Properties of the slot computation -/

theorem int64_of_lt {x : Nat} (h : x < 2 ^ 63) : int64 x = (x : Int) := by
  have h64 : x % 2 ^ 64 = x := Nat.mod_eq_of_lt (by omega)
  unfold int64
  rw [h64, if_pos h]

theorem wrapInt64_of_range {x : Int} (hlow : -9223372036854775808 ≤ x)
    (hhigh : x < 9223372036854775808) : wrapInt64 x = x := by
  unfold wrapInt64
  have h63 : (2 : Int) ^ 63 = 9223372036854775808 := by norm_num
  have h64 : (2 : Int) ^ 64 = 18446744073709551616 := by norm_num
  rw [h63, h64]
  omega

/-- Helper: for a block less than `2^63 - 62135596800` seconds after the epoch
and at most 9223372036 seconds after genesis, the seconds since genesis are
converted without loss. -/
theorem uint64OfSeconds_timeSub (blockTimestamp genesisTime : Nat)
    (hge : genesisTime ≤ blockTimestamp) (hrange : blockTimestamp < 2 ^ 63 - 62135596800)
    (hdiff : blockTimestamp - genesisTime ≤ 9223372036) :
    uint64OfSeconds (timeSub (timeUnix (int64 blockTimestamp)) (timeUnix (int64 genesisTime)))
      = some (blockTimestamp - genesisTime) := by
  have hb : blockTimestamp < 2 ^ 63 := by omega
  have hg : genesisTime < 2 ^ 63 := by omega
  have hcast : (((blockTimestamp - genesisTime : Nat) : Int))
      = (blockTimestamp : Int) - (genesisTime : Int) := by
    push_cast [Nat.cast_sub hge]
    rfl
  have hdiffInt : (blockTimestamp : Int) - (genesisTime : Int) ≤ 9223372036 := by omega
  have hgeInt : (genesisTime : Int) ≤ (blockTimestamp : Int) := by omega
  have hbInt : (blockTimestamp : Int) < 2 ^ 63 - 62135596800 := by omega
  have ht : timeUnix (int64 blockTimestamp)
      = { ext := (blockTimestamp : Int) + 62135596800, nsec := 0 } := by
    rw [int64_of_lt hb]
    unfold timeUnix unixToInternal
    rw [wrapInt64_of_range (by omega) (by omega)]
  have hu : timeUnix (int64 genesisTime)
      = { ext := (genesisTime : Int) + 62135596800, nsec := 0 } := by
    rw [int64_of_lt hg]
    unfold timeUnix unixToInternal
    rw [wrapInt64_of_range (by omega) (by omega)]
  have hd : wrapInt64 (wrapInt64 (wrapInt64 (((blockTimestamp : Int) + 62135596800)
        - ((genesisTime : Int) + 62135596800)) * 10 ^ 9) + ((0 : Int) - 0))
      = ((blockTimestamp : Int) - (genesisTime : Int)) * 10 ^ 9 := by
    have hsimp : ((blockTimestamp : Int) + 62135596800) - ((genesisTime : Int) + 62135596800)
        = (blockTimestamp : Int) - (genesisTime : Int) := by omega
    have h1 : wrapInt64 ((blockTimestamp : Int) - (genesisTime : Int))
        = (blockTimestamp : Int) - (genesisTime : Int) :=
      wrapInt64_of_range (by omega) (by omega)
    have h2 : wrapInt64 (((blockTimestamp : Int) - (genesisTime : Int)) * 10 ^ 9)
        = ((blockTimestamp : Int) - (genesisTime : Int)) * 10 ^ 9 :=
      wrapInt64_of_range (by omega) (by omega)
    rw [hsimp, h1, h2, Int.sub_zero, Int.add_zero, h2]
  have hnn : (0 : Int) ≤ ((blockTimestamp : Int) - (genesisTime : Int)) * 10 ^ 9 := by omega
  have hdsec : Int.tdiv (((blockTimestamp : Int) - (genesisTime : Int)) * 10 ^ 9) (10 ^ 9)
      = (blockTimestamp : Int) - (genesisTime : Int) := by
    rw [Int.tdiv_eq_ediv hnn (by decide)]
    exact Int.mul_ediv_cancel _ (by decide)
  have hdnsec : Int.tmod (((blockTimestamp : Int) - (genesisTime : Int)) * 10 ^ 9) (10 ^ 9) = 0 := by
    rw [Int.tmod_eq_emod hnn (by decide)]
    exact Int.mul_emod_left _ _
  have hadd : timeAdd { ext := (genesisTime : Int) + 62135596800, nsec := 0 }
        (((blockTimestamp : Int) - (genesisTime : Int)) * 10 ^ 9)
      = { ext := (blockTimestamp : Int) + 62135596800, nsec := 0 } := by
    unfold timeAdd
    simp only [hdsec, hdnsec]
    have hsum : wrapInt64 ((genesisTime : Int) + 62135596800
          + ((blockTimestamp : Int) - (genesisTime : Int)))
        = (blockTimestamp : Int) + 62135596800 := by
      rw [wrapInt64_of_range (by omega) (by omega)]
      omega
    have hcmp : decide ((blockTimestamp : Int) + 62135596800 > (genesisTime : Int) + 62135596800)
        = decide ((blockTimestamp : Int) - (genesisTime : Int) > 0) := by
      rw [decide_eq_decide]
      constructor <;> intro h <;> omega
    simp [timeAddSec, hsum, hcmp]
  have hsub : timeSub (timeUnix (int64 blockTimestamp)) (timeUnix (int64 genesisTime))
      = (((blockTimestamp - genesisTime) * 10 ^ 9 : Nat) : Int) := by
    rw [ht, hu]
    unfold timeSub
    simp only [hd, hadd, if_true]
    push_cast [hcast]
    rfl
  have hfloat : float64 (blockTimestamp - genesisTime) = blockTimestamp - genesisTime :=
    float64_of_lt (by omega)
  have hmod : (blockTimestamp - genesisTime) * 10 ^ 9 % 10 ^ 9 = 0 := Nat.mul_mod_left _ _
  have hquot : (blockTimestamp - genesisTime) * 10 ^ 9 / 10 ^ 9 = blockTimestamp - genesisTime :=
    Nat.mul_div_cancel _ (by decide)
  rw [hsub]
  unfold uint64OfSeconds
  rw [if_pos (Int.ofNat_nonneg _), Int.toNat_ofNat]
  unfold secondsTruncated
  simp only [hmod, hquot, if_true, hfloat]

set_option maxRecDepth 100000 in
/-- Claim C11, as stated, fails: for a block 10^10 seconds after genesis (about
317 years), `Time.Sub` returns the maximum duration, 9223372036.854775807
seconds, so both `run` methods compute slot `9223372036 / 12 = 768614336`, not
`floor(10^10 / 12) = 833333333`. -/
theorem slotNumber_counterexample :
    1606824023 ≤ 11606824023 ∧ 0 < 12
      ∧ submitNetworkBalances.slotNumber 11606824023 1606824023 12 = some 768614336
      ∧ submitRplPrice.slotNumber 11606824023 1606824023 12 = some 768614336
      ∧ specSlot 11606824023 1606824023 12 = 833333333 := by
  decide

/-- Claim C11, amended: for every block timestamp below `2^63 - 62135596800`
(the seconds `time.Unix` stores without wrapping), genesis time and
seconds-per-slot with `blockTimestamp ≥ genesisTime`,
`blockTimestamp - genesisTime ≤ 9223372036` seconds (the range of a
`time.Duration`) and `secondsPerSlot > 0`, the slot computed in both `run`
methods is `floor((blockTimestamp - genesisTime) / secondsPerSlot)`. -/
theorem slotNumber_eq_specSlot (blockTimestamp genesisTime secondsPerSlot : Nat)
    (hge : genesisTime ≤ blockTimestamp) (hsps : 0 < secondsPerSlot)
    (hrange : blockTimestamp < 2 ^ 63 - 62135596800)
    (hdiff : blockTimestamp - genesisTime ≤ 9223372036) :
    ∃ slot : Nat, submitNetworkBalances.slotNumber blockTimestamp genesisTime secondsPerSlot
          = some slot
      ∧ submitRplPrice.slotNumber blockTimestamp genesisTime secondsPerSlot = some slot
      ∧ (slot : Int) = specSlot blockTimestamp genesisTime secondsPerSlot := by
  have hne : secondsPerSlot ≠ 0 := Nat.pos_iff_ne_zero.mp hsps
  have hsec := uint64OfSeconds_timeSub blockTimestamp genesisTime hge hrange hdiff
  refine ⟨(blockTimestamp - genesisTime) / secondsPerSlot, ?_, ?_, ?_⟩
  · unfold submitNetworkBalances.slotNumber
    simp [hsec, hne]
  · unfold submitRplPrice.slotNumber
    simp [hsec, hne]
  · unfold specSlot
    rw [Int.fdiv_eq_ediv _ (Int.ofNat_nonneg _)]
    push_cast [Nat.cast_sub hge]
    rfl

theorem slotNumber_eq_specSlot_witness :
    ∃ slot : Nat, submitNetworkBalances.slotNumber 1700000000 1606824023 12 = some slot
      ∧ submitRplPrice.slotNumber 1700000000 1606824023 12 = some slot
      ∧ (slot : Int) = specSlot 1700000000 1606824023 12 :=
  slotNumber_eq_specSlot 1700000000 1606824023 12 (by decide) (by decide) (by decide) (by decide)

/-! ## The staking flag and the bounds of the price -/

/-- Claim C12: whenever `getMinipoolBalanceDetails` returns `IsStaking == true`,
the position is not vacant, its status is none of `Dissolved`, `Initialized`,
`Prelaunch`, and its validator exists with
`ActivationEpoch < current epoch < ExitEpoch`, the current epoch being
`BeaconSlotNumber / SlotsPerEpoch`. -/
theorem getMinipoolBalanceDetails_staking_implies
    (mpd : NativeMinipoolDetails) (state : NetworkState) (details : minipoolBalanceDetails)
    (hres : getMinipoolBalanceDetails mpd state = some details)
    (hstaking : details.IsStaking = true) :
    mpd.IsVacant = false
      ∧ mpd.Status ≠ MinipoolStatus.Dissolved
      ∧ mpd.Status ≠ MinipoolStatus.Initialized
      ∧ mpd.Status ≠ MinipoolStatus.Prelaunch
      ∧ (validatorDetailsAt state.ValidatorDetails mpd.Pubkey).Exists = true
      ∧ (validatorDetailsAt state.ValidatorDetails mpd.Pubkey).ActivationEpoch
          < state.BeaconSlotNumber / state.BeaconConfig.SlotsPerEpoch
      ∧ state.BeaconSlotNumber / state.BeaconConfig.SlotsPerEpoch
          < (validatorDetailsAt state.ValidatorDetails mpd.Pubkey).ExitEpoch := by
  unfold getMinipoolBalanceDetails at hres
  simp only [] at hres
  split_ifs at hres <;> simp only [Option.some.injEq, reduceCtorEq] at hres <;> subst hres <;>
    simp_all

theorem getMinipoolBalanceDetails_staking_implies_witness :
    fullRefundQueue.IsVacant = false
      ∧ fullRefundQueue.Status ≠ MinipoolStatus.Dissolved
      ∧ fullRefundQueue.Status ≠ MinipoolStatus.Initialized
      ∧ fullRefundQueue.Status ≠ MinipoolStatus.Prelaunch
      ∧ (validatorDetailsAt (sampleState [] [(7, activeValidator 32000000000)]).ValidatorDetails
          fullRefundQueue.Pubkey).Exists = true
      ∧ (validatorDetailsAt (sampleState [] [(7, activeValidator 32000000000)]).ValidatorDetails
          fullRefundQueue.Pubkey).ActivationEpoch
          < (sampleState [] [(7, activeValidator 32000000000)]).BeaconSlotNumber
              / (sampleState [] [(7, activeValidator 32000000000)]).BeaconConfig.SlotsPerEpoch
      ∧ (sampleState [] [(7, activeValidator 32000000000)]).BeaconSlotNumber
            / (sampleState [] [(7, activeValidator 32000000000)]).BeaconConfig.SlotsPerEpoch
          < (validatorDetailsAt (sampleState [] [(7, activeValidator 32000000000)]).ValidatorDetails
              fullRefundQueue.Pubkey).ExitEpoch :=
  getMinipoolBalanceDetails_staking_implies fullRefundQueue
    (sampleState [] [(7, activeValidator 32000000000)])
    { IsStaking := true, UserBalance := 4 * 10 ^ 18 } (by decide) rfl

/-- Claim C13: for every integer average tick, the divisor of the final
division in `getRplTwap` (the value of `denominator` after it is reassigned) is
at least `10^18`; the final division therefore does not divide by zero,
`getRplTwap` returns a price, and that price satisfies `0 ≤ price ≤ 10^18`. -/
theorem getRplTwap_price_bounds (avgTick : Int) (ext : TwapCollaborators) (blockNumber : Nat)
    (tick0 tick1 : Int) (h : Observes ext tick0 tick1)
    (havg : (tick1 - tick0) / 43200 = avgTick) :
    (10 : Int) ^ 18 ≤ (bigExp EthToWei_1_0001 avgTick * EthToWei_1) / bigExp EthToWei_1 avgTick
      ∧ bigDiv (EthToWei_1 * EthToWei_1)
          ((bigExp EthToWei_1_0001 avgTick * EthToWei_1) / bigExp EthToWei_1 avgTick) ≠ none
      ∧ ∃ price : Int, getRplTwap ext blockNumber = some (.ok price)
          ∧ price = (EthToWei_1 * EthToWei_1)
              / ((bigExp EthToWei_1_0001 avgTick * EthToWei_1) / bigExp EthToWei_1 avgTick)
          ∧ 0 ≤ price ∧ price ≤ 10 ^ 18 := by
  have hden := twap_denominator_ge avgTick
  have hpos : (0 : Int) < (bigExp EthToWei_1_0001 avgTick * EthToWei_1)
      / bigExp EthToWei_1 avgTick := lt_of_lt_of_le (by decide) hden
  refine ⟨hden, ?_, _, ?_, rfl, ?_, ?_⟩
  · simp [bigDiv, ne_of_gt hpos]
  · rw [getRplTwap_of_observes ext blockNumber tick0 tick1 h, havg]
  · exact Int.ediv_nonneg (by decide) (le_of_lt hpos)
  · apply Int.ediv_le_of_le_mul hpos
    have h36 : EthToWei_1 * EthToWei_1 = 10 ^ 18 * 10 ^ 18 := by decide
    rw [h36]
    exact mul_le_mul_of_nonneg_left hden (by decide)

theorem getRplTwap_price_bounds_witness :
    ∃ price : Int, getRplTwap (observing 1000 (-4319000)) 17000000 = some (.ok price)
      ∧ 0 ≤ price ∧ price ≤ 10 ^ 18 := by
  obtain ⟨-, -, price, hprice, -, hlow, hhigh⟩ :=
    getRplTwap_price_bounds (-100) (observing 1000 (-4319000)) 17000000 1000 (-4319000)
      ⟨by decide, rfl, rfl, [], [0, 0], rfl⟩ (by decide)
  exact ⟨price, hprice, hlow, hhigh⟩

end Odaotool
